import Mathlib

/-
Verification of the grid-format classification and dispatch layer of
uxarray (src/uxarray/grid.py) and the data-array wrapper
(src/uxarray/core/dataarray.py), as a shallow embedding in Lean 4.

The embedding follows the Python source function by function:
  * Grid.find_type   -> Uxarray.find_type
  * Grid.from_file   -> Uxarray.from_file
  * Grid.from_vert   -> Uxarray.from_vert
  * Grid.write       -> Uxarray.write
  * Grid.__init__    (string-argument branches) -> Uxarray.gridInit_str
  * UxDataArray.__init__ / .uxgrid -> Uxarray.UxDataArray.init / .uxgrid
Python exceptions are embedded as Except; the attribute probes of
find_type are embedded as booleans recording whether the opened dataset
exposes the probed attribute.
-/

namespace Uxarray

/-- PurePath(s).name: the final path component, i.e. everything after the
last slash. -/
def pathName (s : String) : String :=
  String.mk ((s.toList.reverse.takeWhile (fun c => c ≠ '/')).reverse)

/-- PurePath(s).suffix, as computed by pathlib: let i be the index of the
last dot in the final component; if 0 < i < len - 1 the suffix is the
component from that dot on (dot included), otherwise it is empty. Here
`after` is the reversed run of characters strictly after the last dot, so
a dot exists iff after is shorter than the whole component, i > 0 iff
after.length + 1 < length, and i < len - 1 iff after is nonempty. -/
def pathSuffix (s : String) : String :=
  let name := (pathName s).toList
  let rev := name.reverse
  let after := rev.takeWhile (fun c => c ≠ '.')
  if after.length < rev.length ∧ 0 < after.length ∧ after.length + 1 < rev.length
  then String.mk ('.' :: after.reverse)
  else ""

/-- The attribute signature of a dataset handle returned by the generic
opener (xr.open_dataset): for each of the four attributes probed by
Grid.find_type, whether the opened dataset exposes it. In the Python
source, `self.ext_ds.a` succeeds when the attribute is present and raises
AttributeError when it is absent. -/
structure ExtDataset where
  has_coordx : Bool
  has_grid_center_lon : Bool
  has_coord : Bool
  has_Mesh2 : Bool
deriving DecidableEq

/-- Outcome of the call xr.open_dataset(self.filepath, mask_and_scale=False)
inside Grid.find_type, classified by the exception handlers the source
installs around it: success, TypeError/AttributeError,
RuntimeError/OSError, or ValueError. Each failure carries str(e). -/
inductive OpenOutcome where
  | success (ds : ExtDataset)
  | typeOrAttrError (msg : String)
  | runtimeOrOSError (msg : String)
  | valueError (msg : String)
deriving DecidableEq

/-- The meshFileType strings assigned by Grid.find_type:
"exo", "scrip", "ugrid", "shp". -/
inductive MeshFileType where
  | exo
  | scrip
  | ugrid
  | shp
deriving DecidableEq

/-- The four sequential attribute probes at the end of Grid.find_type, in
source order: coordx -> "exo", grid_center_lon -> "scrip", coord -> "exo",
Mesh2 -> "ugrid". Each probe that finds its attribute overwrites
self.meshFileType; a probe that raises AttributeError leaves it unchanged
(the handler is `pass`). `m0` is the value of self.meshFileType on entry. -/
def probeAttrs (ds : ExtDataset) (m0 : Option MeshFileType) : Option MeshFileType :=
  let m1 := if ds.has_coordx then some MeshFileType.exo else m0
  let m2 := if ds.has_grid_center_lon then some MeshFileType.scrip else m1
  let m3 := if ds.has_coord then some MeshFileType.exo else m2
  if ds.has_Mesh2 then some MeshFileType.ugrid else m3

/-- The state Grid.find_type leaves behind: the returned self.meshFileType
and the dataset handle stored in self.ext_ds (none when open_dataset did
not succeed, since __init__ initializes self.ext_ds = None). -/
structure FindTypeState where
  meshFileType : Option MeshFileType
  ext_ds : Option ExtDataset
deriving DecidableEq

/-- Grid.find_type. On entry self.meshFileType = None and self.ext_ds =
None (both set by __init__). The opener outcome is passed explicitly.
  * success: the four attribute probes run against the handle; if none
    matched, meshFileType stays None (the source prints a message and
    still returns it).
  * TypeError/AttributeError: raise RuntimeError(str(e) + ": " + filepath)
    regardless of the extension.
  * RuntimeError/OSError, and ValueError: if the extension is ".shp" set
    meshFileType = "shp" (the subsequent probes on ext_ds = None all raise
    AttributeError and are passed over, so "shp" is returned); otherwise
    raise RuntimeError(str(e) + ": " + filepath). -/
def find_type (filepath : String) (opened : OpenOutcome) :
    Except String FindTypeState :=
  match opened with
  | OpenOutcome.success ds =>
      Except.ok { meshFileType := probeAttrs ds none, ext_ds := some ds }
  | OpenOutcome.typeOrAttrError msg =>
      Except.error (msg ++ ": " ++ filepath)
  | OpenOutcome.runtimeOrOSError msg =>
      if pathSuffix filepath = ".shp" then
        Except.ok { meshFileType := some MeshFileType.shp, ext_ds := none }
      else
        Except.error (msg ++ ": " ++ filepath)
  | OpenOutcome.valueError msg =>
      if pathSuffix filepath = ".shp" then
        Except.ok { meshFileType := some MeshFileType.shp, ext_ds := none }
      else
        Except.error (msg ++ ": " ++ filepath)

/-- The reader-collaborator invocation performed by Grid.from_file, with
the argument the source passes: read_exodus(self.ext_ds),
read_scrip(self.ext_ds), read_ugrid(self.filepath),
read_shpfile(self.filepath). -/
inductive ReaderCall where
  | read_exodus (handle : Option ExtDataset)
  | read_scrip (handle : Option ExtDataset)
  | read_ugrid (path : String)
  | read_shpfile (path : String)
deriving DecidableEq

/-- The dataset handle a reader call receives, if any: read_exodus and
read_scrip are called on self.ext_ds; read_ugrid and read_shpfile are
called on self.filepath, not on a handle. -/
def ReaderCall.handleOf : ReaderCall → Option ExtDataset
  | ReaderCall.read_exodus h => h
  | ReaderCall.read_scrip h => h
  | ReaderCall.read_ugrid _ => none
  | ReaderCall.read_shpfile _ => none

/-- Grid.from_file: runs find_type, then dispatches on the returned
meshFileType; "exo" and "scrip" readers receive self.ext_ds, "ugrid" and
"shp" readers receive self.filepath, and a None meshFileType raises
RuntimeError("unknown file format."). -/
def from_file (filepath : String) (opened : OpenOutcome) :
    Except String ReaderCall :=
  match find_type filepath opened with
  | Except.error msg => Except.error msg
  | Except.ok st =>
      match st.meshFileType with
      | some MeshFileType.exo => Except.ok (ReaderCall.read_exodus st.ext_ds)
      | some MeshFileType.scrip => Except.ok (ReaderCall.read_scrip st.ext_ds)
      | some MeshFileType.ugrid => Except.ok (ReaderCall.read_ugrid filepath)
      | some MeshFileType.shp => Except.ok (ReaderCall.read_shpfile filepath)
      | none => Except.error "unknown file format."

/-- The mesh dataset fields populated by Grid.from_vert: the Mesh2
topology_dimension attribute, the Mesh2_node_x and Mesh2_node_y data
variables, and the Mesh2_face_nodes connectivity variable. -/
structure VertMesh (α : Type) where
  topology_dimension : Nat
  node_x : List α
  node_y : List α
  face_nodes : List (List Nat)
deriving DecidableEq

/-- Grid.from_vert on a vertex array of shape (N, 2), embedded as a list
of N coordinate pairs. The source first evaluates self.vertices[0].size,
which raises IndexError when N = 0 (embedded as none); the row size of an
(N, 2) array is 2. x_coord and y_coord are the two columns
(vertices.transpose()[0] and [1]); the single face is
conn = [list(range(0, num_nodes))] with num_nodes = N. -/
def from_vert {α : Type} (vertices : List (α × α)) : Option (VertMesh α) :=
  match vertices with
  | [] => none
  | _ :: _ =>
      some { topology_dimension := 2
             node_x := vertices.map Prod.fst
             node_y := vertices.map Prod.snd
             face_nodes := [List.range vertices.length] }

/-- The action taken by Grid.write: call write_ugrid(outfile), call
write_exodus(outfile), or print "Format not supported for writing." with
the resolved format and return normally. -/
inductive WriteAction where
  | write_ugrid (outfile : String)
  | write_exodus (outfile : String)
  | notSupportedMsg (format : String)
deriving DecidableEq

/-- The format Grid.write resolves: the explicit format argument when one
was given (the Python default is ""), else PurePath(outfile).suffix. -/
def resolvedFormat (outfile format : String) : String :=
  if format = "" then pathSuffix outfile else format

/-- Grid.write(outfile, format=""): resolve the format, then dispatch:
".ugrid" or ".ug" -> write_ugrid(outfile), ".g" or ".exo" ->
write_exodus(outfile), anything else -> print a not-supported message and
return (no exception, no writer call). -/
def write (outfile format : String) : WriteAction :=
  let fmt := resolvedFormat outfile format
  if fmt = ".ugrid" ∨ fmt = ".ug" then WriteAction.write_ugrid outfile
  else if fmt = ".g" ∨ fmt = ".exo" then WriteAction.write_exodus outfile
  else WriteAction.notSupportedMsg fmt

/-- The action Grid.__init__ takes on a string argument: print
"File not found: " and the path then call exit() (process termination),
or enter from_file, or enter from_gridspec. -/
inductive InitAction where
  | exitNotFound (message : String)
  | doFromFile (path : String)
  | doFromGridspec (spec : String)
deriving DecidableEq

/-- Grid.__init__ restricted to a string argument args[0] = path, with the
os.path.isfile oracle passed explicitly (for a string argument
os.path.isfile returns a Bool and raises nothing). The source first tests
`os.path.isfile(args[0]) is False and in_type is not np.ndarray`; for a
string the second conjunct holds, so a non-file path prints
"File not found: " plus the path (print inserts one separating space
after the trailing space of the literal) and calls exit(). Otherwise
control reaches `if in_type is str and os.path.isfile(args[0])`, the
from_file branch, and only if that isfile test fails the from_gridspec
branch. -/
def gridInit_str (isFile : String → Bool) (path : String) : InitAction :=
  if isFile path = false then
    InitAction.exitNotFound ("File not found:  " ++ path)
  else if isFile path then
    InitAction.doFromFile path
  else
    InitAction.doFromGridspec path

/-- A Grid instance, opaque to UxDataArray: only its identity matters. -/
structure GridState where
  id : Nat
deriving DecidableEq

/-- The uxgrid keyword argument of UxDataArray.__init__: the Python
default None, a Grid instance, or some value that is neither None nor a
Grid instance. -/
inductive UxGridArg where
  | noneArg
  | gridArg (g : GridState)
  | nonGridArg
deriving DecidableEq

/-- The state of a constructed UxDataArray relevant here: the _uxgrid
slot. -/
structure UxDataArray where
  _uxgrid : GridState
deriving DecidableEq

/-- The uxgrid property: returns self._uxgrid. -/
def UxDataArray.uxgrid (a : UxDataArray) : GridState := a._uxgrid

/-- The exact message of the RuntimeError raised by UxDataArray.__init__
(two adjacent string literals concatenated in the source). -/
def uxgridErrorMsg : String :=
  "UxDataArray__init__: uxgrid cannot be None. It needs to " ++
  "be of an instance of the uxarray.core.Grid class"

/-- UxDataArray.__init__: after the superclass initializer, stores uxgrid
in self._uxgrid, then raises RuntimeError when uxgrid is None or not a
Grid instance; otherwise assigns the uxgrid property (the setter writes
self._uxgrid again with the same object). A raise during __init__ means
construction fails, so the result is Except. -/
def UxDataArray.init : UxGridArg → Except String UxDataArray
  | UxGridArg.gridArg g => Except.ok { _uxgrid := g }
  | UxGridArg.noneArg => Except.error uxgridErrorMsg
  | UxGridArg.nonGridArg => Except.error uxgridErrorMsg

/-- Claim C1: for every path whose successfully opened dataset exposes
both the coordx attribute and the Mesh2 attribute, classification returns
the ugrid kind: the probes run in the fixed order coordx (exo),
grid_center_lon (scrip), coord (exo), Mesh2 (ugrid), and a later matching
probe overwrites an earlier candidate, so the last matching probe wins. -/
theorem find_type_coordx_Mesh2_yields_ugrid (path : String) (ds : ExtDataset)
    (_hx : ds.has_coordx = true) (hm : ds.has_Mesh2 = true) :
    find_type path (OpenOutcome.success ds) =
      Except.ok ⟨some MeshFileType.ugrid, some ds⟩ := by
  simp [find_type, probeAttrs, hm]

/-- Witness for C1: a concrete dataset exposing exactly coordx and Mesh2
classifies as ugrid. -/
theorem find_type_coordx_Mesh2_yields_ugrid_witness :
    find_type "mixed.nc" (OpenOutcome.success ⟨true, false, false, true⟩) =
      Except.ok ⟨some MeshFileType.ugrid, some ⟨true, false, false, true⟩⟩ :=
  find_type_coordx_Mesh2_yields_ugrid "mixed.nc" ⟨true, false, false, true⟩ rfl rfl

/-- Claim C2: when the generic opener fails with a container-level error
(RuntimeError/OSError, or ValueError), a path with extension ".shp" is
classified as the shapefile kind with no error raised, and any other
extension propagates RuntimeError with the original message attached to
the path. -/
theorem find_type_shp_fallback (path msg : String) :
    (pathSuffix path = ".shp" →
      find_type path (OpenOutcome.runtimeOrOSError msg) =
        Except.ok ⟨some MeshFileType.shp, none⟩ ∧
      find_type path (OpenOutcome.valueError msg) =
        Except.ok ⟨some MeshFileType.shp, none⟩) ∧
    (pathSuffix path ≠ ".shp" →
      find_type path (OpenOutcome.runtimeOrOSError msg) =
        Except.error (msg ++ ": " ++ path) ∧
      find_type path (OpenOutcome.valueError msg) =
        Except.error (msg ++ ": " ++ path)) := by
  constructor <;> intro h <;> constructor <;> simp [find_type, h]

/-- Witness for C2: a concrete .shp path falls back to shapefile on an
OS-level failure, and a concrete .nc path propagates a ValueError message. -/
theorem find_type_shp_fallback_witness :
    find_type "coastlines.shp" (OpenOutcome.runtimeOrOSError "unable to open") =
      Except.ok ⟨some MeshFileType.shp, none⟩ ∧
    find_type "grid.nc" (OpenOutcome.valueError "bad format") =
      Except.error "bad format: grid.nc" :=
  ⟨((find_type_shp_fallback "coastlines.shp" "unable to open").1 (by decide)).1,
   ((find_type_shp_fallback "grid.nc" "bad format").2 (by decide)).2⟩

/-- Claim C3: when the generic opener fails with a TypeError or
AttributeError, classification raises RuntimeError immediately for every
path, whatever its extension; the .shp fallback never applies to this
error class. -/
theorem find_type_type_error_propagates (path msg : String) :
    find_type path (OpenOutcome.typeOrAttrError msg) =
      Except.error (msg ++ ": " ++ path) := rfl

/-- Claim C4: a dataset that opens successfully but exposes none of the
four signature attributes makes the classifier return the unknown kind
(meshFileType None) without raising, and it is the from_file dispatch
that then raises the unknown-file-format error. -/
theorem find_type_unknown_and_caller_raises (path : String) (ds : ExtDataset)
    (h1 : ds.has_coordx = false) (h2 : ds.has_grid_center_lon = false)
    (h3 : ds.has_coord = false) (h4 : ds.has_Mesh2 = false) :
    find_type path (OpenOutcome.success ds) = Except.ok ⟨none, some ds⟩ ∧
    from_file path (OpenOutcome.success ds) = Except.error "unknown file format." := by
  have hp : probeAttrs ds none = none := by simp [probeAttrs, h1, h2, h3, h4]
  exact ⟨by simp [find_type, hp], by simp [from_file, find_type, hp]⟩

/-- Witness for C4: a concrete dataset with no signature attribute is
classified unknown and the dispatch raises. -/
theorem find_type_unknown_and_caller_raises_witness :
    find_type "empty.nc" (OpenOutcome.success ⟨false, false, false, false⟩) =
      Except.ok ⟨none, some ⟨false, false, false, false⟩⟩ ∧
    from_file "empty.nc" (OpenOutcome.success ⟨false, false, false, false⟩) =
      Except.error "unknown file format." :=
  find_type_unknown_and_caller_raises "empty.nc" ⟨false, false, false, false⟩
    rfl rfl rfl rfl

/-- Counterexample to C5 as stated: on the empty vertex array of shape
(0, 2) grid construction does not produce a mesh at all — the source
evaluates vertices[0].size, which raises IndexError (embedded as none). -/
theorem from_vert_empty_counterexample :
    from_vert ([] : List (Int × Int)) = none := rfl

/-- Claim C5 (amended: N at least 1): for every nonempty vertex array of
shape (N, 2), grid construction produces a mesh with exactly one face
whose node connectivity is the range 0..N-1 in input order, and whose
node x and y coordinate arrays equal the first and second input columns. -/
theorem from_vert_one_face {α : Type} (vertices : List (α × α))
    (h : vertices ≠ []) :
    from_vert vertices =
      some ⟨2, vertices.map Prod.fst, vertices.map Prod.snd,
            [List.range vertices.length]⟩ := by
  cases vertices with
  | nil => exact absurd rfl h
  | cons v vs => rfl

/-- Witness for C5: a concrete three-vertex array yields one face [0,1,2]
with the two input columns as coordinates. -/
theorem from_vert_one_face_witness :
    from_vert [((1 : Int), 2), (3, 4), (5, 6)] =
      some ⟨2, [1, 3, 5], [2, 4, 6], [[0, 1, 2]]⟩ :=
  (from_vert_one_face [((1 : Int), 2), (3, 4), (5, 6)] (by decide)).trans (by decide)

/-- Counterexample to C6 as stated: a concrete path classified as ugrid
(a NetCDF-derived kind) has its reader invoked with the file path, and
that reader call carries no dataset handle, so the handle opened during
classification is not passed for the ugrid kind. -/
theorem from_file_ugrid_gets_path_not_handle :
    from_file "outCSne30.ug" (OpenOutcome.success ⟨false, false, false, true⟩) =
      Except.ok (ReaderCall.read_ugrid "outCSne30.ug") ∧
    ReaderCall.handleOf (ReaderCall.read_ugrid "outCSne30.ug") = none :=
  ⟨rfl, rfl⟩

/-- Claim C6 (amended): for the exodus and scrip kinds the dataset handle
opened during classification is the same handle passed to the matched
reader; for the ugrid kind the reader is invoked with the file path, not
with the handle. -/
theorem from_file_handle_passing (path : String) (ds : ExtDataset) :
    (probeAttrs ds none = some MeshFileType.exo →
      from_file path (OpenOutcome.success ds) =
        Except.ok (ReaderCall.read_exodus (some ds))) ∧
    (probeAttrs ds none = some MeshFileType.scrip →
      from_file path (OpenOutcome.success ds) =
        Except.ok (ReaderCall.read_scrip (some ds))) ∧
    (probeAttrs ds none = some MeshFileType.ugrid →
      from_file path (OpenOutcome.success ds) =
        Except.ok (ReaderCall.read_ugrid path)) := by
  refine ⟨fun h => ?_, fun h => ?_, fun h => ?_⟩ <;> simp [from_file, find_type, h]

/-- Witness for C6 (amended): a concrete dataset exposing only coord is
classified exo and the exodus reader receives the classification handle. -/
theorem from_file_handle_passing_witness :
    from_file "grid.g" (OpenOutcome.success ⟨false, false, true, false⟩) =
      Except.ok (ReaderCall.read_exodus (some ⟨false, false, true, false⟩)) :=
  (from_file_handle_passing "grid.g" ⟨false, false, true, false⟩).1 rfl

/-- Claim C7: when the resolved output format is none of ".ugrid", ".ug",
".g", ".exo", the write operation invokes no writer collaborator and
returns normally with a non-fatal not-supported report, raising nothing. -/
theorem write_unsupported_no_writer (outfile format : String)
    (h1 : resolvedFormat outfile format ≠ ".ugrid")
    (h2 : resolvedFormat outfile format ≠ ".ug")
    (h3 : resolvedFormat outfile format ≠ ".g")
    (h4 : resolvedFormat outfile format ≠ ".exo") :
    write outfile format =
      WriteAction.notSupportedMsg (resolvedFormat outfile format) := by
  simp [write, h1, h2, h3, h4]

/-- Witness for C7: writing to a .txt path with no explicit format is a
non-fatal not-supported outcome. -/
theorem write_unsupported_no_writer_witness :
    write "out.txt" "" = WriteAction.notSupportedMsg ".txt" :=
  (write_unsupported_no_writer "out.txt" ""
    (by decide) (by decide) (by decide) (by decide)).trans (by decide)

/-- Claim C8: with no explicit format the output format is inferred from
the path suffix (".ugrid"/".ug" dispatch to the ugrid writer, ".g"/".exo"
to the exodus writer); with an explicit format the path suffix is ignored
and the same dispatch runs on the given format alone. -/
theorem write_format_dispatch (outfile format : String) :
    (format = "" →
      resolvedFormat outfile format = pathSuffix outfile ∧
      ((pathSuffix outfile = ".ugrid" ∨ pathSuffix outfile = ".ug") →
        write outfile format = WriteAction.write_ugrid outfile) ∧
      ((pathSuffix outfile = ".g" ∨ pathSuffix outfile = ".exo") →
        write outfile format = WriteAction.write_exodus outfile)) ∧
    (format ≠ "" →
      resolvedFormat outfile format = format ∧
      ((format = ".ugrid" ∨ format = ".ug") →
        write outfile format = WriteAction.write_ugrid outfile) ∧
      ((format = ".g" ∨ format = ".exo") →
        write outfile format = WriteAction.write_exodus outfile)) := by
  constructor <;>
    · intro h
      refine ⟨by simp [resolvedFormat, h], fun hs => ?_, fun hs => ?_⟩ <;>
        rcases hs with h1 | h1 <;> simp [write, resolvedFormat, h, h1]

/-- Witness for C8: a .ug path with no explicit format goes to the ugrid
writer, and an explicit ".exo" format sends a .nc path to the exodus
writer. -/
theorem write_format_dispatch_witness :
    write "mesh.ug" "" = WriteAction.write_ugrid "mesh.ug" ∧
    write "mesh.nc" ".exo" = WriteAction.write_exodus "mesh.nc" :=
  ⟨((write_format_dispatch "mesh.ug" "").1 rfl).2.1 (Or.inr (by decide)),
   ((write_format_dispatch "mesh.nc" ".exo").2 (by decide)).2.2 (Or.inr rfl)⟩

/-- Claim C9: constructing a UxDataArray with uxgrid None or not a Grid
instance raises, and construction with a Grid instance succeeds with the
uxgrid property returning exactly the Grid that was passed in. -/
theorem uxDataArray_init_guard (g : GridState) :
    UxDataArray.init UxGridArg.noneArg = Except.error uxgridErrorMsg ∧
    UxDataArray.init UxGridArg.nonGridArg = Except.error uxgridErrorMsg ∧
    UxDataArray.init (UxGridArg.gridArg g) = Except.ok ⟨g⟩ ∧
    UxDataArray.uxgrid ⟨g⟩ = g :=
  ⟨rfl, rfl, rfl, rfl⟩

/-- Claim C10: a string argument that is not an existing file makes the
constructor print a file-not-found message and terminate the process
before any later branch, and the gridspec branch is unreachable for every
string input. -/
theorem gridInit_str_not_found_exits (isFile : String → Bool) (path : String) :
    (isFile path = false →
      gridInit_str isFile path =
        InitAction.exitNotFound ("File not found:  " ++ path)) ∧
    ∀ spec, gridInit_str isFile path ≠ InitAction.doFromGridspec spec := by
  constructor
  · intro h; simp [gridInit_str, h]
  · intro spec
    by_cases h : isFile path = false
    · simp [gridInit_str, h]
    · have h1 : isFile path = true := by
        cases hh : isFile path with
        | false => exact absurd hh h
        | true => rfl
      simp [gridInit_str, h1]

/-- Witness for C10: with an isfile oracle that rejects everything, a
concrete string path produces the print-and-exit action. -/
theorem gridInit_str_not_found_exits_witness :
    gridInit_str (fun _ => false) "missing.nc" =
      InitAction.exitNotFound "File not found:  missing.nc" :=
  ((gridInit_str_not_found_exits (fun _ => false) "missing.nc").1 rfl).trans
    (by decide)

end Uxarray
